import Mathlib

/-!
# Observability middleware (`internal/handler/middleware/observability.go`)

A shallow embedding of the Go function

```go
func Observability(next HandlerFunc, l *slog.Logger) HandlerFunc {
	return func(ctx context.Context, msg *wire.OpMsg) (*wire.OpMsg, error) {
		return next(ctx, msg)
	}
}
```

Go code that can touch shared state or abort is embedded as an explicit
state-passing computation `Go W α`: it takes the world `W` it runs in and
gives back either a returned value or a run-time fault, together with the
world it leaves behind.  Pointers and function values may be nil and are
embedded as `Option`.
-/

namespace Middleware

/-! ## Go computations -/

/-- Reasons a Go call aborts instead of returning. -/
inductive Fault where
  /-- A call through a nil function value or a nil pointer dereference. -/
  | nilDeref
  /-- Any other run-time fault, identified by a code. -/
  | raised (code : Nat)
  deriving DecidableEq, Repr

/-- What a Go call yields: the returned value, or the fault that aborted it. -/
inductive Result (α : Type) where
  | ret (a : α)
  | panics (f : Fault)
  deriving DecidableEq, Repr

/-- A Go computation over the world `W` with return type `α`. -/
def Go (W α : Type) : Type := W → Result α × W

/-- The computation `return a`: no effect on the world. -/
def Go.pure {W α : Type} (a : α) : Go W α :=
  fun w => (Result.ret a, w)

/-- Sequencing: run `m`, and unless it aborted, continue with `k`. -/
def Go.bind {W α β : Type} (m : Go W α) (k : α → Go W β) : Go W β :=
  fun w =>
    match m w with
    | (Result.ret a, w1) => k a w1
    | (Result.panics f, w1) => (Result.panics f, w1)

/-! ## Types of the package -/

/-- Modelled from the spec: the `HandlerFunc` type declaration, which lives in
another file of the package; the specification gives the signature
`(requestContext, Message) -> (Message, error)`.  The message is a pointer
(`*wire.OpMsg`, `none` is nil), the error is an interface value (`none` is
nil), and the function value itself may be nil. -/
def HandlerFunc (Ctx Msg Err W : Type) : Type :=
  Option (Ctx → Option Msg → Go W (Option Msg × Option Err))

/-- The Go call expression `h(ctx, msg)`: a call through a nil function value
aborts with a nil dereference and leaves the world as it was. -/
def HandlerFunc.call {Ctx Msg Err W : Type} (h : HandlerFunc Ctx Msg Err W)
    (ctx : Ctx) (msg : Option Msg) : Go W (Option Msg × Option Err) :=
  match h with
  | none => fun w => (Result.panics Fault.nilDeref, w)
  | some f => f ctx msg

/-- Modelled from the spec: the structured logger (`log/slog`), a telemetry
sink that accepts a record; handling a record acts on the world and may fail,
either by returning an error or by aborting. -/
structure Logger (Rec Err W : Type) where
  handle : Rec → Go W (Option Err)

/-! ## The source -/

/-- The function literal returned by `Observability`: it captures `next` and
`l`, and its body is `return next(ctx, msg)`. -/
def Observability.func1 {Ctx Msg Err Rec W : Type}
    (next : HandlerFunc Ctx Msg Err W) (_l : Option (Logger Rec Err W)) :
    Ctx → Option Msg → Go W (Option Msg × Option Err) :=
  fun ctx msg => next.call ctx msg

/-- The Go function `Observability(next, l)`: its body is a single `return`
of the function literal. -/
def Observability {Ctx Msg Err Rec W : Type}
    (next : HandlerFunc Ctx Msg Err W) (l : Option (Logger Rec Err W)) :
    Go W (HandlerFunc Ctx Msg Err W) :=
  Go.pure (some (Observability.func1 next l))

/-- The Go expression `Observability(next, l)(ctx, msg)`: build the wrapped
handler, then call it. -/
def invokeObservability {Ctx Msg Err Rec W : Type}
    (next : HandlerFunc Ctx Msg Err W) (l : Option (Logger Rec Err W))
    (ctx : Ctx) (msg : Option Msg) : Go W (Option Msg × Option Err) :=
  Go.bind (Observability next l) (fun h => h.call ctx msg)

/-- Repeated wrapping `Observability(...Observability(Observability(H, l1), l2)..., ln)`. -/
def nest {Ctx Msg Err Rec W : Type} (H : HandlerFunc Ctx Msg Err W) :
    List (Option (Logger Rec Err W)) → Go W (HandlerFunc Ctx Msg Err W)
  | [] => Go.pure H
  | l :: ls => Go.bind (Observability H l) (fun h => nest h ls)

/-- The error a finished call handed back to its caller, if any. -/
def returnedError {Msg Err W : Type} (r : Result (Option Msg × Option Err) × W) : Option Err :=
  match r.1 with
  | Result.ret (_, e) => e
  | Result.panics _ => none

/-! ## An instrumented world

To speak about telemetry and about how often a handler ran, the world is
given two append-only journals next to the state the handlers own. -/

/-- Kinds of telemetry artefact the specification names. -/
inductive Signal where
  | spanStart | spanEnd | entryLog | exitLog | counterInc | latencyObs
  deriving DecidableEq, Repr

/-- One telemetry artefact as received by a sink, with the error attached to it, if any. -/
structure Emission (Err : Type) where
  kind : Signal
  err : Option Err
  deriving DecidableEq, Repr

/-- The world: what the telemetry sinks received, the arguments journal of
recording handlers, and the state owned by the handlers. -/
structure World (Ctx Msg Err S : Type) where
  sink : List (Emission Err)
  calls : List (Ctx × Option Msg)
  app : S

/-- A handler that journals the arguments it is called with and then behaves
as `f` on the handler-owned state. -/
def recording {Ctx Msg Err S : Type}
    (f : Ctx → Option Msg → S → Result (Option Msg × Option Err) × S) :
    HandlerFunc Ctx Msg Err (World Ctx Msg Err S) :=
  some (fun ctx msg w =>
    ((f ctx msg w.app).1,
      { sink := w.sink, calls := w.calls ++ [(ctx, msg)], app := (f ctx msg w.app).2 }))

/-- A logger that delivers every record to the sink. -/
def sinkLogger {Ctx Msg Err S : Type} : Logger (Emission Err) Err (World Ctx Msg Err S) where
  handle := fun r w => (Result.ret none, { sink := w.sink ++ [r], calls := w.calls, app := w.app })

/-- A logger that fails on every call. -/
def failingLogger {Rec Err W : Type} : Logger Rec Err W where
  handle := fun _ w => (Result.panics (Fault.raised 1), w)

/-- What the sinks received during the run of `m` from the world `w`. -/
def emittedBy {Ctx Msg Err S α : Type} (m : Go (World Ctx Msg Err S) α)
    (w : World Ctx Msg Err S) : List (Emission Err) :=
  (m w).2.sink.drop w.sink.length

/-- How many artefacts of kind `k` are in `es`. -/
def countSignal {Err : Type} (k : Signal) (es : List (Emission Err)) : Nat :=
  (es.filter (fun e => decide (e.kind = k))).length

/-- Modelled from the spec: the `FailingMiddleware` of the order-sensitivity
property, a middleware whose handler returns the injected error `e` without
calling its inner handler. -/
def Fail {Ctx Msg Err W : Type} (e : Err) (_next : HandlerFunc Ctx Msg Err W) :
    Go W (HandlerFunc Ctx Msg Err W) :=
  Go.pure (some (fun _ _ => Go.pure (none, some e)))

/-- Observability outermost: `Observability(Fail(H), l)(ctx, msg)`. -/
def observabilityOuter {Ctx Msg Err Rec W : Type} (e : Err)
    (H : HandlerFunc Ctx Msg Err W) (l : Option (Logger Rec Err W))
    (ctx : Ctx) (msg : Option Msg) : Go W (Option Msg × Option Err) :=
  Go.bind (Fail e H) (fun fh => invokeObservability fh l ctx msg)

/-- Observability inner: `Fail(Observability(H, l))(ctx, msg)`. -/
def observabilityInner {Ctx Msg Err Rec W : Type} (e : Err)
    (H : HandlerFunc Ctx Msg Err W) (l : Option (Logger Rec Err W))
    (ctx : Ctx) (msg : Option Msg) : Go W (Option Msg × Option Err) :=
  Go.bind (Observability H l) (fun oh => Go.bind (Fail e oh) (fun h => h.call ctx msg))

/-- The single-emission property as the specification words it: the run
delivers exactly one artefact of every kind to the sinks. -/
def SingleEmission {Ctx Msg Err S : Type}
    (next : HandlerFunc Ctx Msg Err (World Ctx Msg Err S))
    (l : Option (Logger (Emission Err) Err (World Ctx Msg Err S)))
    (ctx : Ctx) (msg : Option Msg) (w : World Ctx Msg Err S) : Prop :=
  ∀ k : Signal, countSignal k (emittedBy (invokeObservability next l ctx msg) w) = 1

/-- The order-sensitivity property as the specification words it: placed
outermost, Observability delivers an artefact carrying the injected error to
its sink; placed inner, it delivers nothing. -/
def OrderSensitive {Ctx Msg Err S : Type} (e : Err)
    (H : HandlerFunc Ctx Msg Err (World Ctx Msg Err S))
    (l : Option (Logger (Emission Err) Err (World Ctx Msg Err S)))
    (ctx : Ctx) (msg : Option Msg) (w : World Ctx Msg Err S) : Prop :=
  (∃ x ∈ emittedBy (observabilityOuter e H l ctx msg) w, x.err = some e) ∧
    emittedBy (observabilityInner e H l ctx msg) w = []

/-! ## Concrete fixtures -/

/-- A world in which nothing has happened yet. -/
def emptyWorld : World Nat Nat Nat Unit :=
  { sink := [], calls := [], app := () }

/-- A terminal handler that succeeds, echoing its message, and touches nothing. -/
def echoHandler : HandlerFunc Nat Nat Nat (World Nat Nat Nat Unit) :=
  some (fun _ msg w => (Result.ret (msg, none), w))

/-! ## Basic facts -/

theorem Go.pure_bind {W α β : Type} (a : α) (k : α → Go W β) :
    Go.bind (Go.pure a) k = k a := by
  funext w
  simp [Go.bind, Go.pure]

theorem Observability_eq {Ctx Msg Err Rec W : Type}
    (next : HandlerFunc Ctx Msg Err W) (l : Option (Logger Rec Err W)) (w : W) :
    Observability next l w = (Result.ret (some (Observability.func1 next l)), w) := rfl

theorem func1_call {Ctx Msg Err Rec W : Type}
    (next : HandlerFunc Ctx Msg Err W) (l : Option (Logger Rec Err W))
    (ctx : Ctx) (msg : Option Msg) :
    HandlerFunc.call (some (Observability.func1 next l)) ctx msg = next.call ctx msg := rfl

theorem invokeObservability_eq {Ctx Msg Err Rec W : Type}
    (next : HandlerFunc Ctx Msg Err W) (l : Option (Logger Rec Err W))
    (ctx : Ctx) (msg : Option Msg) :
    invokeObservability next l ctx msg = next.call ctx msg := by
  unfold invokeObservability Observability
  rw [Go.pure_bind, func1_call]

theorem emittedBy_of_sink_eq {Ctx Msg Err S α : Type} (m : Go (World Ctx Msg Err S) α)
    (w : World Ctx Msg Err S) (h : (m w).2.sink = w.sink) :
    emittedBy m w = [] := by
  unfold emittedBy
  rw [h]
  exact List.drop_length w.sink

theorem recording_call {Ctx Msg Err S : Type}
    (f : Ctx → Option Msg → S → Result (Option Msg × Option Err) × S)
    (ctx : Ctx) (msg : Option Msg) (w : World Ctx Msg Err S) :
    (recording f).call ctx msg w =
      ((f ctx msg w.app).1,
        { sink := w.sink, calls := w.calls ++ [(ctx, msg)], app := (f ctx msg w.app).2 }) := rfl

theorem nest_spec {Ctx Msg Err Rec W : Type} (ls : List (Option (Logger Rec Err W))) :
    ∀ (H : HandlerFunc Ctx Msg Err W) (w : W),
      ∃ h : HandlerFunc Ctx Msg Err W,
        nest H ls w = (Result.ret h, w) ∧ ∀ ctx msg, h.call ctx msg = H.call ctx msg := by
  induction ls with
  | nil =>
    intro H w
    exact ⟨H, rfl, fun _ _ => rfl⟩
  | cons l ls ih =>
    intro H w
    obtain ⟨h, hrun, hcall⟩ := ih (some (Observability.func1 H l)) w
    refine ⟨h, ?_, ?_⟩
    · show Go.bind (Observability H l) (fun h => nest h ls) w = _
      unfold Observability
      rw [Go.pure_bind]
      exact hrun
    · intro ctx msg
      rw [hcall ctx msg, func1_call]

theorem nest_invoke {Ctx Msg Err Rec W : Type} (ls : List (Option (Logger Rec Err W)))
    (H : HandlerFunc Ctx Msg Err W) (ctx : Ctx) (msg : Option Msg) (w : W) :
    Go.bind (nest H ls) (fun h => h.call ctx msg) w = H.call ctx msg w := by
  obtain ⟨h, hrun, hcall⟩ := nest_spec ls H w
  unfold Go.bind
  rw [hrun]
  simp only []
  rw [hcall]

/-! ## The claims -/

/-- C1 (passthrough identity): `Observability(next, l)(ctx, msg)` yields exactly
what `next(ctx, msg)` yields, whether `next` succeeds or fails: the same
message, the same error, and the same world left behind. -/
theorem passthrough_identity {Ctx Msg Err Rec W : Type}
    (next : HandlerFunc Ctx Msg Err W) (l : Option (Logger Rec Err W))
    (ctx : Ctx) (msg : Option Msg) (w : W) :
    invokeObservability next l ctx msg w = next.call ctx msg w := by
  rw [invokeObservability_eq]

/-- C2 (error transparency): the wrapped handler hands back a non-nil error if
and only if `next` does, and then it is the very error value `next` produced;
a success is never turned into a failure nor a failure into a success. -/
theorem error_transparency {Ctx Msg Err Rec W : Type}
    (next : HandlerFunc Ctx Msg Err W) (l : Option (Logger Rec Err W))
    (ctx : Ctx) (msg : Option Msg) (w : W) :
    (returnedError (invokeObservability next l ctx msg w) ≠ none ↔
        returnedError (next.call ctx msg w) ≠ none) ∧
      (∀ e : Err, returnedError (invokeObservability next l ctx msg w) = some e ↔
        returnedError (next.call ctx msg w) = some e) ∧
      (∀ (m : Option Msg) (e : Option Err),
        (invokeObservability next l ctx msg w).1 = Result.ret (m, e) ↔
          (next.call ctx msg w).1 = Result.ret (m, e)) := by
  rw [invokeObservability_eq]
  exact ⟨Iff.rfl, fun _ => Iff.rfl, fun _ _ => Iff.rfl⟩

/-- C3, refuted as stated: with a terminal handler that succeeds and a logger
that delivers to the sink, one invocation delivers no artefact at all, so not
one of every kind. -/
theorem single_emission_refuted :
    ¬ SingleEmission echoHandler (some sinkLogger) 0 (some 7) emptyWorld := by
  intro h
  have h1 := h Signal.entryLog
  revert h1
  decide

/-- C3, amended: one invocation of the wrapped handler delivers nothing of its
own to the telemetry sinks, whatever `next` returns: the sinks hold exactly
what `next` alone leaves in them, artefact counts included, and with an inner
handler that emits nothing the count of every kind of artefact is zero. -/
theorem observability_emits_nothing {Ctx Msg Err S : Type}
    (next : HandlerFunc Ctx Msg Err (World Ctx Msg Err S))
    (l : Option (Logger (Emission Err) Err (World Ctx Msg Err S)))
    (f : Ctx → Option Msg → S → Result (Option Msg × Option Err) × S)
    (ctx : Ctx) (msg : Option Msg) (w : World Ctx Msg Err S) (k : Signal) :
    (invokeObservability next l ctx msg w).2.sink = (next.call ctx msg w).2.sink ∧
      countSignal k (emittedBy (invokeObservability next l ctx msg) w) =
        countSignal k (emittedBy (next.call ctx msg) w) ∧
      countSignal k (emittedBy (invokeObservability (recording f) l ctx msg) w) = 0 := by
  refine ⟨?_, ?_, ?_⟩
  · rw [invokeObservability_eq]
  · rw [invokeObservability_eq]
  · rw [invokeObservability_eq, emittedBy_of_sink_eq _ _ (by rw [recording_call])]
    rfl

/-- C4 (unmodified forwarding): the inner handler is entered with exactly the
`ctx` and `msg` the wrapped handler was invoked with: a recording `next`
journals precisely `(ctx, msg)`, and any `next` runs on exactly those arguments. -/
theorem forwards_arguments_unmodified {Ctx Msg Err Rec S : Type}
    (f : Ctx → Option Msg → S → Result (Option Msg × Option Err) × S)
    (g : Ctx → Option Msg → Go (World Ctx Msg Err S) (Option Msg × Option Err))
    (l : Option (Logger Rec Err (World Ctx Msg Err S)))
    (ctx : Ctx) (msg : Option Msg) (w : World Ctx Msg Err S) :
    (invokeObservability (recording f) l ctx msg w).2.calls = w.calls ++ [(ctx, msg)] ∧
      invokeObservability (some g) l ctx msg w = g ctx msg w := by
  constructor
  · rw [invokeObservability_eq, recording_call]
  · rw [invokeObservability_eq]
    rfl

/-- C5 (no retry): one invocation of the wrapped handler calls `next` exactly
once, whatever `next` returns: the call count of a counting `next` grows by
exactly one. -/
theorem calls_next_exactly_once {Ctx Msg Err Rec S : Type}
    (f : Ctx → Option Msg → S → Result (Option Msg × Option Err) × S)
    (l : Option (Logger Rec Err (World Ctx Msg Err S)))
    (ctx : Ctx) (msg : Option Msg) (w : World Ctx Msg Err S) :
    (invokeObservability (recording f) l ctx msg w).2.calls.length = w.calls.length + 1 := by
  rw [invokeObservability_eq, recording_call]
  simp

/-- C6 (telemetry non-interference): the outcome of the wrapped handler does
not depend on the logger: any two loggers give the same outcome, and with a
logger that fails on every call the outcome is still exactly that of `next`. -/
theorem telemetry_non_interference {Ctx Msg Err Rec W : Type}
    (next : HandlerFunc Ctx Msg Err W) (l1 l2 : Option (Logger Rec Err W))
    (ctx : Ctx) (msg : Option Msg) (w : W) :
    invokeObservability next l1 ctx msg w = invokeObservability next l2 ctx msg w ∧
      invokeObservability next (some (failingLogger : Logger Rec Err W)) ctx msg w =
        next.call ctx msg w := by
  constructor
  · rw [invokeObservability_eq, invokeObservability_eq]
  · rw [invokeObservability_eq]

/-- C7, refuted as stated: with Observability outermost around the failing
middleware, no artefact carrying the injected error reaches the sink. -/
theorem order_sensitivity_refuted :
    ¬ OrderSensitive 5 echoHandler (some sinkLogger) 0 (some 7) emptyWorld := by
  rintro ⟨⟨x, hx, _⟩, _⟩
  have hnil : emittedBy (observabilityOuter 5 echoHandler (some sinkLogger) 0 (some 7))
      emptyWorld = [] := by decide
  rw [hnil] at hx
  exact List.not_mem_nil x hx

/-- C7, amended: in both orders the caller gets the injected error `e`, the
world is left as it was (the terminal handler is not called) and Observability
delivers nothing to its sink; the two compositions do not differ in what
Observability records. -/
theorem order_insensitive_telemetry {Ctx Msg Err S : Type} (e : Err)
    (H : HandlerFunc Ctx Msg Err (World Ctx Msg Err S))
    (l : Option (Logger (Emission Err) Err (World Ctx Msg Err S)))
    (ctx : Ctx) (msg : Option Msg) (w : World Ctx Msg Err S) :
    observabilityOuter e H l ctx msg w = (Result.ret (none, some e), w) ∧
      observabilityInner e H l ctx msg w = (Result.ret (none, some e), w) ∧
      emittedBy (observabilityOuter e H l ctx msg) w = [] ∧
      emittedBy (observabilityInner e H l ctx msg) w = [] := by
  have ho : observabilityOuter e H l ctx msg w = (Result.ret (none, some e), w) := by
    unfold observabilityOuter Fail
    rw [Go.pure_bind, invokeObservability_eq]
    rfl
  have hi : observabilityInner e H l ctx msg w = (Result.ret (none, some e), w) := by
    unfold observabilityInner Observability Fail
    rw [Go.pure_bind, Go.pure_bind]
    rfl
  exact ⟨ho, hi, emittedBy_of_sink_eq _ _ (by rw [ho]), emittedBy_of_sink_eq _ _ (by rw [hi])⟩

/-- C8 (pure construction): building the wrapped handler returns the function
literal and leaves the world untouched (no call of `next`, nothing sent to the
sinks); `next` runs only when the returned handler is invoked, and an
invocation after any earlier invocation delegates to `next` in the same way. -/
theorem construction_is_pure {Ctx Msg Err S : Type}
    (next : HandlerFunc Ctx Msg Err (World Ctx Msg Err S))
    (l : Option (Logger (Emission Err) Err (World Ctx Msg Err S)))
    (f : Ctx → Option Msg → S → Result (Option Msg × Option Err) × S)
    (ctx0 ctx : Ctx) (msg0 msg : Option Msg) (w : World Ctx Msg Err S) :
    Observability next l w = (Result.ret (some (Observability.func1 next l)), w) ∧
      (Observability (recording f) l w).2.calls = w.calls ∧
      (Observability next l w).2.sink = w.sink ∧
      HandlerFunc.call (some (Observability.func1 next l)) ctx msg w = next.call ctx msg w ∧
      HandlerFunc.call (some (Observability.func1 next l)) ctx msg
          (HandlerFunc.call (some (Observability.func1 next l)) ctx0 msg0 w).2 =
        next.call ctx msg (next.call ctx0 msg0 w).2 := by
  refine ⟨rfl, rfl, rfl, ?_, ?_⟩
  · rw [func1_call]
  · rw [func1_call, func1_call]

/-- C9 (nesting collapses): wrapping `H` with Observability once per logger of
any list of loggers gives a handler that yields exactly what `H` yields and
calls `H` exactly once; in particular wrapping twice behaves as wrapping once. -/
theorem nesting_collapses {Ctx Msg Err Rec S : Type}
    (H : HandlerFunc Ctx Msg Err (World Ctx Msg Err S))
    (f : Ctx → Option Msg → S → Result (Option Msg × Option Err) × S)
    (ls : List (Option (Logger Rec Err (World Ctx Msg Err S))))
    (l l2 : Option (Logger Rec Err (World Ctx Msg Err S)))
    (ctx : Ctx) (msg : Option Msg) (w : World Ctx Msg Err S) :
    Go.bind (nest H ls) (fun h => h.call ctx msg) w = H.call ctx msg w ∧
      (Go.bind (nest (recording f) ls) (fun h => h.call ctx msg) w).2.calls =
        w.calls ++ [(ctx, msg)] ∧
      Go.bind (nest H [l, l2]) (fun h => h.call ctx msg) w =
        invokeObservability H l ctx msg w := by
  refine ⟨nest_invoke ls H ctx msg w, ?_, ?_⟩
  · rw [nest_invoke, recording_call]
  · rw [nest_invoke, invokeObservability_eq]

/-- C10 (no failure of its own): `Observability(next, l)` always returns a
non-nil handler without failing, even for a nil `next` or a nil logger; invoked
on a non-nil `next` it yields exactly what `next` yields, also with a nil
logger and a nil message, so it aborts only when `next` does; with a nil `next`
the nil-call fault arises only at invocation. -/
theorem no_failure_of_its_own {Ctx Msg Err Rec W : Type}
    (next : HandlerFunc Ctx Msg Err W)
    (g : Ctx → Option Msg → Go W (Option Msg × Option Err))
    (l : Option (Logger Rec Err W)) (ctx : Ctx) (msg : Option Msg) (w : W) :
    (∃ h, Observability next l w = (Result.ret (some h), w)) ∧
      (∃ h, Observability (none : HandlerFunc Ctx Msg Err W) l w = (Result.ret (some h), w)) ∧
      invokeObservability (some g) (none : Option (Logger Rec Err W)) ctx none w =
        g ctx none w ∧
      invokeObservability (some g) l ctx msg w = g ctx msg w ∧
      invokeObservability (none : HandlerFunc Ctx Msg Err W) l ctx msg w =
        (Result.panics Fault.nilDeref, w) := by
  refine ⟨⟨_, rfl⟩, ⟨_, rfl⟩, ?_, ?_, ?_⟩
  · rw [invokeObservability_eq]
    rfl
  · rw [invokeObservability_eq]
    rfl
  · rw [invokeObservability_eq]
    rfl

end Middleware
